import Mathlib

/-!
Verification of the teleporter allow-list precompile
(`src/precompile/teleporter_allow_list.go`, `src/precompile/teleporter.go`).

Shallow embedding conventions:
* a 32-byte storage word is a `Nat` (its big-endian value, `< 2^256`);
* a 20-byte account address is a `Nat` (its big-endian value, `< 2^160`);
* `StateDB` is the host key/value state, a function
  `precompile address → storage key → stored word`;
* byte strings are `List Nat` (one entry per byte);
* Go's `(ret []byte, remainingGas uint64, err error)` triples become
  an `Outcome` value (success with returned bytes, or failure with a
  typed error), paired with the post-call `StateDB`;
* the local-file diagnostics the read handlers perform are recorded as
  an explicit `FileEvent` trace so that interaction outside the
  chain-state boundary is visible in the model.
-/

/-- A 32-byte storage word, as its big-endian numeric value. -/
abbrev Hash := Nat

/-- A 20-byte account address, as its big-endian numeric value. -/
abbrev Address := Nat

/-- Number of values a 20-byte address can take. -/
def addressSize : Nat := 2 ^ 160

/-- Big-endian numeric value of a byte string (go-ethereum interprets
byte slices big-endian). -/
def bytesToNat (bs : List Nat) : Nat :=
  bs.foldl (fun acc b => acc * 256 + b) 0

/-- go-ethereum `common.BytesToAddress`: keep the last 20 bytes of the
input, i.e. its value modulo `2^160`. -/
def bytesToAddress (bs : List Nat) : Address :=
  bytesToNat bs % addressSize

/-- go-ethereum `Address.Hash()`: left-zero-pad the 20-byte address to a
32-byte word; on values this is the identity embedding. -/
def addressHash (a : Address) : Hash := a

/-- go-ethereum `Hash.Bytes()`: the 32 big-endian bytes of a word. -/
def hashBytes (w : Hash) : List Nat :=
  (List.range 32).map fun i => w / 256 ^ (31 - i) % 256

/-- The host state interface: stored 32-byte word per
(precompile address, storage key). Absent keys read as the zero word. -/
def StateDB := Nat → Nat → Hash

/-- `StateDB.GetState` of the host state interface. -/
def StateDB.GetState (s : StateDB) (pAddr key : Nat) : Hash := s pAddr key

/-- `StateDB.SetState` of the host state interface. -/
def StateDB.SetState (s : StateDB) (pAddr key : Nat) (w : Hash) : StateDB :=
  fun p k => if p = pAddr ∧ k = key then w else s p k

/-- `TeleporterAllowListRole`: a role is stored as a 32-byte word. -/
abbrev TeleporterAllowListRole := Hash

/-- `TeleporterAllowListNoRole = common.BigToHash(big.NewInt(0))`. -/
def TeleporterAllowListNoRole : TeleporterAllowListRole := 0

/-- `TeleporterAllowListEnabled = common.BigToHash(big.NewInt(1))`. -/
def TeleporterAllowListEnabled : TeleporterAllowListRole := 1

/-- `TeleporterAllowListAdmin = common.BigToHash(big.NewInt(2))`. -/
def TeleporterAllowListAdmin : TeleporterAllowListRole := 2

/-- `TeleporterAllowListRole.Valid`: true iff the word is one of the
three canonical role words. -/
def TeleporterAllowListRole.Valid (s : TeleporterAllowListRole) : Bool :=
  s == TeleporterAllowListNoRole || s == TeleporterAllowListEnabled ||
    s == TeleporterAllowListAdmin

/-- `TeleporterAllowListRole.IsNoRole`. -/
def TeleporterAllowListRole.IsNoRole (s : TeleporterAllowListRole) : Bool :=
  s == TeleporterAllowListNoRole

/-- `TeleporterAllowListRole.IsAdmin`. -/
def TeleporterAllowListRole.IsAdmin (s : TeleporterAllowListRole) : Bool :=
  s == TeleporterAllowListAdmin

/-- `TeleporterAllowListRole.IsEnabled`: Admin or Enabled. -/
def TeleporterAllowListRole.IsEnabled (s : TeleporterAllowListRole) : Bool :=
  s == TeleporterAllowListAdmin || s == TeleporterAllowListEnabled

/-- `teleporterGetAllowListStatus`: read the role of `address` for the
precompile at `precompileAddr`, keyed by the address hash. -/
def teleporterGetAllowListStatus (state : StateDB) (precompileAddr : Nat)
    (address : Address) : TeleporterAllowListRole :=
  state.GetState precompileAddr (addressHash address)

/-- `teleporterSetAllowListRole`: write `role` for `address` under the
precompile at `precompileAddr`, keyed by the address hash. -/
def teleporterSetAllowListRole (stateDB : StateDB) (precompileAddr : Nat)
    (address : Address) (role : TeleporterAllowListRole) : StateDB :=
  stateDB.SetState precompileAddr (addressHash address) role

/-- Modelled from the spec: `deductGas` lives in the repository's
precompile contract helpers, which are not under `src/`; per the spec,
it subtracts the fixed cost from the supplied budget and fails with an
out-of-gas outcome when the budget is insufficient. -/
def deductGas (suppliedGas requiredGas : Nat) : Option Nat :=
  if suppliedGas < requiredGas then none else some (suppliedGas - requiredGas)

/-- Modelled from the spec: the fixed gas cost of a mutating handler,
a constant defined outside `src/`; its exact value does not affect any
claim, it only needs to be a fixed constant. -/
def ModifyAllowListGasCost : Nat := 20000

/-- Modelled from the spec: the fixed gas cost of a reading handler,
a constant defined outside `src/`. -/
def ReadAllowListGasCost : Nat := 5000

/-- `allowListInputLen = common.HashLength = 32`: the required
post-selector payload length (one 32-byte-padded address argument). -/
def allowListInputLen : Nat := 32

/-- The typed failures a handler can produce. -/
inductive PrecompileErr where
  /-- `vmerrs.ErrOutOfGas`, produced by `deductGas`. -/
  | ErrOutOfGas : PrecompileErr
  /-- the `invalid input length` error, carrying the observed length. -/
  | invalidInputLen (got : Nat) : PrecompileErr
  /-- `vmerrs.ErrWriteProtection`. -/
  | ErrWriteProtection : PrecompileErr
  /-- the `ErrCannotModifyAllowList` error, identifying the caller. -/
  | ErrCannotModifyAllowList (caller : Address) : PrecompileErr
deriving DecidableEq

/-- The `(ret, remainingGas, err)` result of a handler: success carries
the returned bytes, failure carries the typed error; both carry the
remaining gas. -/
inductive Outcome where
  | success (ret : List Nat) (remainingGas : Nat) : Outcome
  | failure (e : PrecompileErr) (remainingGas : Nat) : Outcome
deriving DecidableEq

/-- An interaction with the local filesystem performed by a handler:
appending `line` to the file at `path`. -/
inductive FileEvent where
  | fileAppend (path line : String) : FileEvent
deriving DecidableEq

/-- `teleporterCreateAllowListRoleSetter (precompileAddr, role)`, the
execution function it returns, from `teleporter_allow_list.go`:
deduct `ModifyAllowListGasCost`; check the payload is exactly
`allowListInputLen` bytes; decode the target address; reject read-only
calls with write protection; reject non-Admin callers; otherwise write
`role` for the decoded address and return empty output. The state is
returned unchanged on every failure path. -/
def teleporterCreateAllowListRoleSetter (precompileAddr : Nat)
    (role : TeleporterAllowListRole) (stateDB : StateDB) (callerAddr : Address)
    (input : List Nat) (suppliedGas : Nat) (readOnly : Bool) :
    Outcome × StateDB :=
  match deductGas suppliedGas ModifyAllowListGasCost with
  | none => (.failure .ErrOutOfGas 0, stateDB)
  | some remainingGas =>
    if input.length ≠ allowListInputLen then
      (.failure (.invalidInputLen input.length) remainingGas, stateDB)
    else
      let modifyAddress := bytesToAddress input
      if readOnly then
        (.failure .ErrWriteProtection remainingGas, stateDB)
      else
        let callerStatus := teleporterGetAllowListStatus stateDB precompileAddr callerAddr
        if !callerStatus.IsAdmin then
          (.failure (.ErrCannotModifyAllowList callerAddr) remainingGas, stateDB)
        else
          (.success [] remainingGas,
            teleporterSetAllowListRole stateDB precompileAddr modifyAddress role)

/-- `teleporterCreateReadAllowList precompileAddr`, the execution
function it returns, from `teleporter_allow_list.go`: it first appends
the line `test\n` to the local file `test_precompile_output.txt`
(recorded here as a `FileEvent` trace), then deducts
`ReadAllowListGasCost`, checks the payload length, and returns the raw
32-byte stored word of the decoded address. It never writes state and
ignores the read-only flag. -/
def teleporterCreateReadAllowList (precompileAddr : Nat) (stateDB : StateDB)
    (callerAddr : Address) (input : List Nat) (suppliedGas : Nat)
    (readOnly : Bool) : Outcome × StateDB × List FileEvent :=
  let events := [FileEvent.fileAppend "test_precompile_output.txt" "test\n"]
  match deductGas suppliedGas ReadAllowListGasCost with
  | none => (.failure .ErrOutOfGas 0, stateDB, events)
  | some remainingGas =>
    if input.length ≠ allowListInputLen then
      (.failure (.invalidInputLen input.length) remainingGas, stateDB, events)
    else
      let readAddress := bytesToAddress input
      let role := teleporterGetAllowListStatus stateDB precompileAddr readAddress
      (.success (hashBytes role) remainingGas, stateDB, events)

/-- `createTestFunction precompileAddr`, the execution function it
returns, from `teleporter.go`: identical to the read handler except
that the line appended to `test_precompile_output.txt` is `test 1\n`. -/
def createTestFunction (precompileAddr : Nat) (stateDB : StateDB)
    (callerAddr : Address) (input : List Nat) (suppliedGas : Nat)
    (readOnly : Bool) : Outcome × StateDB × List FileEvent :=
  let events := [FileEvent.fileAppend "test_precompile_output.txt" "test 1\n"]
  match deductGas suppliedGas ReadAllowListGasCost with
  | none => (.failure .ErrOutOfGas 0, stateDB, events)
  | some remainingGas =>
    if input.length ≠ allowListInputLen then
      (.failure (.invalidInputLen input.length) remainingGas, stateDB, events)
    else
      let readAddress := bytesToAddress input
      let role := teleporterGetAllowListStatus stateDB precompileAddr readAddress
      (.success (hashBytes role) remainingGas, stateDB, events)

/-- The five-step handler execution contract for a role-setting handler,
transcribed from the spec (section 4.5): (1) gas deduction with an
out-of-gas failure and zero remaining gas on an insufficient budget;
(2) the payload must be exactly one 32-byte address argument; (3) write
protection under a read-only context; (4) the caller's stored role must
be Admin; (5) write the fixed target role for the decoded address and
succeed with empty output. Every rejection at steps 2 to 4 reports the
remaining gas computed at step 1. -/
def specRoleSetterContract (precompileAddr : Nat)
    (targetRole : TeleporterAllowListRole) (st : StateDB) (caller : Address)
    (input : List Nat) (gas : Nat) (readOnly : Bool) : Outcome × StateDB :=
  if gas < ModifyAllowListGasCost then
    (.failure .ErrOutOfGas 0, st)
  else
    let remaining := gas - ModifyAllowListGasCost
    if input.length ≠ 32 then
      (.failure (.invalidInputLen input.length) remaining, st)
    else if readOnly then
      (.failure .ErrWriteProtection remaining, st)
    else if !(TeleporterAllowListRole.IsAdmin
        (st.GetState precompileAddr (addressHash caller))) then
      (.failure (.ErrCannotModifyAllowList caller) remaining, st)
    else
      (.success [] remaining,
        st.SetState precompileAddr (addressHash (bytesToAddress input)) targetRole)

/-- C1: every role-setting handler, for every call
(caller, input, suppliedGas, readOnly), implements exactly the
five-step sequence of the handler execution contract: gas deduction
first, then 32-byte payload validation, then write protection, then
Admin authorization of the caller, then the single role write with
empty output; every rejection at steps 2 to 4 returns the remaining gas
computed at step 1. Stated as an exact refinement of the contract
transcribed from the spec. -/
theorem roleSetter_follows_handler_contract (precompileAddr : Nat)
    (role : TeleporterAllowListRole) (st : StateDB) (caller : Address)
    (input : List Nat) (gas : Nat) (readOnly : Bool) :
    teleporterCreateAllowListRoleSetter precompileAddr role st caller input gas readOnly
      = specRoleSetterContract precompileAddr role st caller input gas readOnly := by
  unfold teleporterCreateAllowListRoleSetter specRoleSetterContract deductGas
    teleporterGetAllowListStatus teleporterSetAllowListRole allowListInputLen
  by_cases hg : gas < ModifyAllowListGasCost
  · simp [hg]
  · by_cases hl : input.length = 32
    · simp [hg, hl]
    · simp [hg, hl]

/-- The all-zero state: every slot holds the zero word, i.e. every
address has `NoRole` everywhere. -/
def zeroState : StateDB := fun _ _ => 0

/-- A state in which every slot holds the Admin word. -/
def adminState : StateDB := fun _ _ => 2

/-- A 32-byte payload of all zero bytes; it decodes to address 0. -/
def zeroInput : List Nat := List.replicate 32 0

/-- C3 (code bug exhibit): the reading handlers interact with the local
filesystem. Both `teleporterCreateReadAllowList` and
`createTestFunction` append a diagnostic line to
`test_precompile_output.txt` on every call — shown here for a
well-formed call, for an out-of-gas call (the append happens before gas
deduction), and for the test-function handler — so a handler is not
free of observable interaction outside the RoleStore/chain-state
boundary. -/
theorem read_handlers_perform_file_io :
    (teleporterCreateReadAllowList 1 zeroState 0 zeroInput 5000 false).2.2
        = [FileEvent.fileAppend "test_precompile_output.txt" "test\n"]
      ∧ (teleporterCreateReadAllowList 1 zeroState 0 zeroInput 0 false).2.2
        = [FileEvent.fileAppend "test_precompile_output.txt" "test\n"]
      ∧ (createTestFunction 1 zeroState 0 zeroInput 5000 false).2.2
        = [FileEvent.fileAppend "test_precompile_output.txt" "test 1\n"] :=
  ⟨rfl, rfl, rfl⟩

/-- C4: a role-setting call from a caller whose stored role is not
Admin — with sufficient gas, a 32-byte payload and not read-only —
fails with the unauthorized error identifying the caller, returns the
gas remaining after deduction, and leaves the state unchanged, for any
target role. -/
theorem roleSetter_nonadmin_rejected (precompileAddr : Nat)
    (role : TeleporterAllowListRole) (st : StateDB) (caller : Address)
    (input : List Nat) (gas : Nat)
    (hgas : ModifyAllowListGasCost ≤ gas)
    (hlen : input.length = allowListInputLen)
    (hauth : (teleporterGetAllowListStatus st precompileAddr caller).IsAdmin = false) :
    teleporterCreateAllowListRoleSetter precompileAddr role st caller input gas false
      = (.failure (.ErrCannotModifyAllowList caller) (gas - ModifyAllowListGasCost), st) := by
  unfold teleporterCreateAllowListRoleSetter deductGas
  have hg : ¬ gas < ModifyAllowListGasCost := Nat.not_lt.mpr hgas
  simp [hg, hlen, hauth]

/-- Witness for C4: in the all-zero state, caller 5 (role NoRole) is
rejected as unauthorized when trying to set Admin for address 0. -/
theorem roleSetter_nonadmin_rejected_witness :
    teleporterCreateAllowListRoleSetter 1 TeleporterAllowListAdmin zeroState 5 zeroInput 20000 false
      = (.failure (.ErrCannotModifyAllowList 5) (20000 - ModifyAllowListGasCost), zeroState) :=
  roleSetter_nonadmin_rejected 1 TeleporterAllowListAdmin zeroState 5 zeroInput 20000
    (by decide) (by decide) (by decide)

/-- C5: a call whose supplied gas is strictly below the handler's fixed
cost fails with the out-of-gas error and zero remaining gas, for the
role-setting handler and for the reading handler alike; the outcome is
the same for every state (the state is not read) and the state is
returned unchanged (nothing is mutated). -/
theorem handlers_out_of_gas (precompileAddr : Nat)
    (role : TeleporterAllowListRole) (caller : Address) (input : List Nat)
    (gas : Nat) (readOnly : Bool) :
    (gas < ModifyAllowListGasCost →
      ∀ st : StateDB,
        teleporterCreateAllowListRoleSetter precompileAddr role st caller input gas readOnly
          = (.failure .ErrOutOfGas 0, st)) ∧
    (gas < ReadAllowListGasCost →
      ∀ st : StateDB,
        (teleporterCreateReadAllowList precompileAddr st caller input gas readOnly).1
            = .failure .ErrOutOfGas 0
          ∧ (teleporterCreateReadAllowList precompileAddr st caller input gas readOnly).2.1
            = st) := by
  constructor
  · intro h st
    unfold teleporterCreateAllowListRoleSetter deductGas
    simp [h]
  · intro h st
    unfold teleporterCreateReadAllowList deductGas
    simp [h]

/-- Witness for C5: with 3 gas supplied, both handlers fail out-of-gas
with zero remaining gas on the all-zero state. -/
theorem handlers_out_of_gas_witness :
    teleporterCreateAllowListRoleSetter 1 2 zeroState 5 zeroInput 3 false
        = (.failure .ErrOutOfGas 0, zeroState)
      ∧ (teleporterCreateReadAllowList 1 zeroState 5 zeroInput 3 false).1
        = .failure .ErrOutOfGas 0 :=
  ⟨(handlers_out_of_gas 1 2 5 zeroInput 3 false).1 (by decide) zeroState,
   ((handlers_out_of_gas 1 2 5 zeroInput 3 false).2 (by decide) zeroState).1⟩

/-- C6: a role-setting call made read-only — with sufficient gas and a
32-byte payload — fails with the write-protection error and leaves the
state unchanged, for every state, i.e. regardless of the caller's
role. -/
theorem roleSetter_write_protected (precompileAddr : Nat)
    (role : TeleporterAllowListRole) (st : StateDB) (caller : Address)
    (input : List Nat) (gas : Nat)
    (hgas : ModifyAllowListGasCost ≤ gas)
    (hlen : input.length = allowListInputLen) :
    teleporterCreateAllowListRoleSetter precompileAddr role st caller input gas true
      = (.failure .ErrWriteProtection (gas - ModifyAllowListGasCost), st) := by
  unfold teleporterCreateAllowListRoleSetter deductGas
  have hg : ¬ gas < ModifyAllowListGasCost := Nat.not_lt.mpr hgas
  simp [hg, hlen]

/-- Witness for C6: even in a state where the caller holds the Admin
role everywhere, a read-only role-setting call is write-protected. -/
theorem roleSetter_write_protected_witness :
    teleporterCreateAllowListRoleSetter 1 TeleporterAllowListEnabled adminState 5 zeroInput 20000 true
      = (.failure .ErrWriteProtection (20000 - ModifyAllowListGasCost), adminState) :=
  roleSetter_write_protected 1 TeleporterAllowListEnabled adminState 5 zeroInput 20000
    (by decide) (by decide)

/-- C7: for both handlers, a call whose post-selector payload is not
exactly 32 bytes fails with the malformed-input error carrying the
observed length, returns the gas remaining after deduction, and leaves
the state unchanged — the payload is never decoded into an address and
the call never succeeds. -/
theorem handlers_malformed_input (precompileAddr : Nat)
    (role : TeleporterAllowListRole) (st : StateDB) (caller : Address)
    (input : List Nat) (gas : Nat) (readOnly : Bool)
    (hlen : input.length ≠ allowListInputLen) :
    (ModifyAllowListGasCost ≤ gas →
      teleporterCreateAllowListRoleSetter precompileAddr role st caller input gas readOnly
        = (.failure (.invalidInputLen input.length) (gas - ModifyAllowListGasCost), st)) ∧
    (ReadAllowListGasCost ≤ gas →
      teleporterCreateReadAllowList precompileAddr st caller input gas readOnly
        = (.failure (.invalidInputLen input.length) (gas - ReadAllowListGasCost), st,
            [FileEvent.fileAppend "test_precompile_output.txt" "test\n"])) := by
  constructor
  · intro hgas
    unfold teleporterCreateAllowListRoleSetter deductGas
    have hg : ¬ gas < ModifyAllowListGasCost := Nat.not_lt.mpr hgas
    simp [hg, hlen]
  · intro hgas
    unfold teleporterCreateReadAllowList deductGas
    have hg : ¬ gas < ReadAllowListGasCost := Nat.not_lt.mpr hgas
    simp [hg, hlen]

/-- Witness for C7: a 0-byte payload is rejected by the role setter and
a 33-byte payload is rejected by the read handler, each with the
malformed-input error for its length. -/
theorem handlers_malformed_input_witness :
    teleporterCreateAllowListRoleSetter 1 2 zeroState 5 [] 20000 false
        = (.failure (.invalidInputLen 0) (20000 - ModifyAllowListGasCost), zeroState)
      ∧ teleporterCreateReadAllowList 1 zeroState 5 (List.replicate 33 0) 5000 false
        = (.failure (.invalidInputLen 33) (5000 - ReadAllowListGasCost), zeroState,
            [FileEvent.fileAppend "test_precompile_output.txt" "test\n"]) :=
  ⟨(handlers_malformed_input 1 2 zeroState 5 [] 20000 false (by decide)).1 (by decide),
   (handlers_malformed_input 1 2 zeroState 5 (List.replicate 33 0) 5000 false
      (by decide)).2 (by decide)⟩

/-- A corrupted state: the slot of address 5 under resource 1 holds the
word 7, which is none of the three canonical role words. -/
def badState : StateDB := fun p k => if p = 1 ∧ k = 5 then 7 else 0

/-- A 32-byte payload decoding to address 5. -/
def inputAddr5 : List Nat := List.replicate 31 0 ++ [5]

/-- C2 (counterexample): with the non-canonical word 7 stored for
address 5, a read call for address 5 does not fail closed — it
succeeds and returns the invalid stored word verbatim as the role
output, which differs from the NoRole serialization. -/
theorem read_fails_closed_counterexample :
    TeleporterAllowListRole.Valid 7 = false
      ∧ badState 1 (addressHash 5) = 7
      ∧ (teleporterCreateReadAllowList 1 badState 9 inputAddr5 5000 false).1
          = .success (hashBytes 7) 0
      ∧ hashBytes 7 ≠ hashBytes TeleporterAllowListNoRole := by
  exact ⟨by decide, by decide, by decide, by decide⟩

/-- C2 (amended): a stored word other than the three canonical role
words is rejected by `Valid` and grants nothing to the authorization
predicates — `IsAdmin` and `IsEnabled` are false, so a mutating call
from a caller carrying such a word is rejected as unauthorized with no
state change (authorization fails closed); the reading handler,
however, performs no validity check and returns the stored word
verbatim in its output. -/
theorem invalid_role_fails_closed_for_authorization (w : Hash)
    (hw0 : w ≠ 0) (hw1 : w ≠ 1) (hw2 : w ≠ 2) :
    TeleporterAllowListRole.Valid w = false
      ∧ TeleporterAllowListRole.IsAdmin w = false
      ∧ TeleporterAllowListRole.IsEnabled w = false
      ∧ (∀ (precompileAddr : Nat) (role : TeleporterAllowListRole) (st : StateDB)
          (caller : Address) (input : List Nat) (gas : Nat),
          st precompileAddr (addressHash caller) = w →
          ModifyAllowListGasCost ≤ gas → input.length = allowListInputLen →
          teleporterCreateAllowListRoleSetter precompileAddr role st caller input gas false
            = (.failure (.ErrCannotModifyAllowList caller)
                (gas - ModifyAllowListGasCost), st))
      ∧ (∀ (precompileAddr : Nat) (st : StateDB) (caller : Address)
          (input : List Nat) (gas : Nat),
          st precompileAddr (addressHash (bytesToAddress input)) = w →
          ReadAllowListGasCost ≤ gas → input.length = allowListInputLen →
          (teleporterCreateReadAllowList precompileAddr st caller input gas false).1
            = .success (hashBytes w) (gas - ReadAllowListGasCost)) := by
  have hval : TeleporterAllowListRole.Valid w = false := by
    unfold TeleporterAllowListRole.Valid TeleporterAllowListNoRole
      TeleporterAllowListEnabled TeleporterAllowListAdmin
    simp [hw0, hw1, hw2]
  have hadm : TeleporterAllowListRole.IsAdmin w = false := by
    unfold TeleporterAllowListRole.IsAdmin TeleporterAllowListAdmin
    simp [hw2]
  have hen : TeleporterAllowListRole.IsEnabled w = false := by
    unfold TeleporterAllowListRole.IsEnabled TeleporterAllowListAdmin
      TeleporterAllowListEnabled
    simp [hw1, hw2]
  refine ⟨hval, hadm, hen, ?_, ?_⟩
  · intro precompileAddr role st caller input gas hst hgas hlen
    apply roleSetter_nonadmin_rejected precompileAddr role st caller input gas hgas hlen
    unfold teleporterGetAllowListStatus StateDB.GetState
    rw [hst]
    exact hadm
  · intro precompileAddr st caller input gas hst hgas hlen
    unfold teleporterCreateReadAllowList deductGas
    have hg : ¬ gas < ReadAllowListGasCost := Nat.not_lt.mpr hgas
    simp only [hg, if_false, ite_false, hlen]
    simp [teleporterGetAllowListStatus, StateDB.GetState, hst]

/-- Witness for the amended C2: the word 7 is invalid and grants
nothing, and in the corrupted state a mutating call from caller 5
(whose stored word is 7) is rejected as unauthorized with the state
unchanged. -/
theorem invalid_role_fails_closed_for_authorization_witness :
    TeleporterAllowListRole.Valid 7 = false
      ∧ teleporterCreateAllowListRoleSetter 1 2 badState 5 zeroInput 20000 false
        = (.failure (.ErrCannotModifyAllowList 5) (20000 - ModifyAllowListGasCost), badState) :=
  ⟨(invalid_role_fails_closed_for_authorization 7 (by decide) (by decide) (by decide)).1,
   (invalid_role_fails_closed_for_authorization 7 (by decide) (by decide)
      (by decide)).2.2.2.1 1 2 badState 5 zeroInput 20000 (by decide) (by decide) (by decide)⟩

/-- C10: a successful role-setting call returns empty output bytes and
its post-state is exactly the pre-state with the single slot keyed by
the hash of the decoded target address, under the handler's own
resource address, set to the handler's role — that slot now holds the
role and every other (resource, key) slot is unchanged. The reading
handler returns its state argument unchanged on every call, so a
successful read writes no storage slot at all. -/
theorem roleSetter_success_frame (precompileAddr : Nat)
    (role : TeleporterAllowListRole) (st : StateDB) (caller : Address)
    (input : List Nat) (gas : Nat) (readOnly : Bool) (ret : List Nat)
    (rg : Nat) (stAfter : StateDB)
    (h : teleporterCreateAllowListRoleSetter precompileAddr role st caller input gas readOnly
          = (.success ret rg, stAfter)) :
    ret = []
      ∧ stAfter = st.SetState precompileAddr (addressHash (bytesToAddress input)) role
      ∧ stAfter precompileAddr (addressHash (bytesToAddress input)) = role
      ∧ (∀ p k, ¬ (p = precompileAddr ∧ k = addressHash (bytesToAddress input)) →
          stAfter p k = st p k)
      ∧ (∀ (st2 : StateDB) (caller2 : Address) (input2 : List Nat)
          (gas2 : Nat) (ro2 : Bool),
          (teleporterCreateReadAllowList precompileAddr st2 caller2 input2 gas2 ro2).2.1
            = st2) := by
  have hread : ∀ (st2 : StateDB) (caller2 : Address) (input2 : List Nat)
      (gas2 : Nat) (ro2 : Bool),
      (teleporterCreateReadAllowList precompileAddr st2 caller2 input2 gas2 ro2).2.1 = st2 := by
    intro st2 caller2 input2 gas2 ro2
    unfold teleporterCreateReadAllowList deductGas
    by_cases hg : gas2 < ReadAllowListGasCost
    · simp [hg]
    · by_cases hl : input2.length = allowListInputLen
      · simp [hg, hl]
      · simp [hg, hl]
  unfold teleporterCreateAllowListRoleSetter deductGas at h
  by_cases hg : gas < ModifyAllowListGasCost
  · simp [hg] at h
  · by_cases hl : input.length = allowListInputLen
    · by_cases hro : readOnly
      · simp [hg, hl, hro] at h
      · by_cases hadm : (teleporterGetAllowListStatus st precompileAddr caller).IsAdmin
        · simp [hg, hl, hro, hadm, Prod.ext_iff] at h
          obtain ⟨⟨hret, hrg⟩, hstate⟩ := h
          subst hret
          refine ⟨rfl, ?_, ?_, ?_, hread⟩
          · rw [← hstate]
            rfl
          · rw [← hstate]
            unfold teleporterSetAllowListRole StateDB.SetState
            simp
          · intro p k hpk
            rw [← hstate]
            unfold teleporterSetAllowListRole StateDB.SetState
            simp [hpk]
        · simp [hg, hl, hro, hadm] at h
    · simp [hg, hl] at h

/-- Witness for C10: caller 5 is Admin in `adminState`; setting role
Enabled for the address decoded from the all-zero payload (address 0)
succeeds, and the slot of an unrelated pair (3, 4) is unchanged. -/
theorem roleSetter_success_frame_witness :
    teleporterSetAllowListRole adminState 1 (bytesToAddress zeroInput)
        TeleporterAllowListEnabled 3 4 = adminState 3 4 :=
  (roleSetter_success_frame 1 TeleporterAllowListEnabled adminState 5 zeroInput 20000 false
      [] (20000 - ModifyAllowListGasCost)
      (teleporterSetAllowListRole adminState 1 (bytesToAddress zeroInput)
        TeleporterAllowListEnabled)
      rfl).2.2.2.1 3 4 (by decide)

/-- `TeleporterAllowListConfig`: the initial set of allow-list admins
(`adminAddresses`). -/
structure TeleporterAllowListConfig where
  AllowListAdmins : List Address
deriving DecidableEq

/-- Modelled from the spec: `AllowListConfig` is declared in the
repository's plain allow-list file, which is not under `src/`; the
spec and its teleporter twin in `src/` give it the same single field,
the ordered initial admin list. -/
structure AllowListConfig where
  AllowListAdmins : List Address
deriving DecidableEq

/-- `TeleporterAllowListConfig.Configure`: seed the role of each admin
address under `precompileAddr` to Admin, in list order. -/
def TeleporterAllowListConfig.Configure (c : TeleporterAllowListConfig)
    (state : StateDB) (precompileAddr : Nat) : StateDB :=
  c.AllowListAdmins.foldl
    (fun st adminAddr =>
      teleporterSetAllowListRole st precompileAddr adminAddr TeleporterAllowListAdmin)
    state

/-- Modelled from the spec: `AllowListConfig.Configure` is not under
`src/`; per the spec (and identically to its teleporter twin) it maps
every initial admin to Admin, in the order given. -/
def AllowListConfig.Configure (c : AllowListConfig) (state : StateDB)
    (precompileAddr : Nat) : StateDB :=
  c.AllowListAdmins.foldl
    (fun st adminAddr =>
      teleporterSetAllowListRole st precompileAddr adminAddr TeleporterAllowListAdmin)
    state

/-- The indexed comparison loop of the config `Equal` methods: compare
the two admin lists position by position (run under a prior equal-length
check). -/
def adminsPointwiseEqual (xs ys : List Address) : Bool :=
  (xs.zip ys).all fun p => p.1 == p.2

/-- `TeleporterAllowListConfig.Equal`: false against nil, false on
differing lengths, otherwise a positional comparison of the two admin
lists. -/
def TeleporterAllowListConfig.Equal (c : TeleporterAllowListConfig)
    (other : Option AllowListConfig) : Bool :=
  match other with
  | none => false
  | some o =>
    if c.AllowListAdmins.length ≠ o.AllowListAdmins.length then false
    else adminsPointwiseEqual c.AllowListAdmins o.AllowListAdmins

/-- Modelled from the spec: `AllowListConfig.Equal` is not under
`src/`; per the spec it is the strict structural, order-sensitive
comparison of the admin sequences, identical to its teleporter twin. -/
def AllowListConfig.Equal (c : AllowListConfig)
    (other : Option AllowListConfig) : Bool :=
  match other with
  | none => false
  | some o =>
    if c.AllowListAdmins.length ≠ o.AllowListAdmins.length then false
    else adminsPointwiseEqual c.AllowListAdmins o.AllowListAdmins

/-- Modelled from the spec: `UpgradeableConfig` is not under `src/`; it
carries the activation timestamp (a nullable big integer, modelled as
an optional Nat) and the disable flag. -/
structure UpgradeableConfig where
  BlockTimestamp : Option Nat
  Disable : Bool
deriving DecidableEq

/-- Modelled from the spec: `UpgradeableConfig.Equal` is not under
`src/`; two upgradeable parts are equal iff they have the same
activation timestamp and the same disable flag (false against nil). -/
def UpgradeableConfig.Equal (u : UpgradeableConfig)
    (other : Option UpgradeableConfig) : Bool :=
  match other with
  | none => false
  | some o => u.BlockTimestamp == o.BlockTimestamp && u.Disable == o.Disable

/-- Modelled from the spec: the fixed resource address of the contract
deployer allow list; the constant lives in the repository's params
file, not under `src/`, and no claim depends on its numeric value. -/
def TeleporterContractDeployerAllowListAddress : Nat := 2 * 256 ^ 19

/-- Modelled from the spec: the fixed resource address of the
teleporter precompile, defined outside `src/`. -/
def TeleporterAddress : Nat := 2 * 256 ^ 19 + 1

/-- `TeleporterContractDeployerAllowListConfig`: wraps an
`AllowListConfig` and an `UpgradeableConfig` (Go struct embedding,
modelled as two fields). -/
structure TeleporterContractDeployerAllowListConfig where
  allowListConfig : AllowListConfig
  upgradeableConfig : UpgradeableConfig
deriving DecidableEq

/-- `TeleporterConfig` from `teleporter.go`: wraps a
`TeleporterAllowListConfig` and an `UpgradeableConfig`. -/
structure TeleporterConfig where
  teleporterAllowListConfig : TeleporterAllowListConfig
  upgradeableConfig : UpgradeableConfig
deriving DecidableEq

/-- `StatefulPrecompileConfig`: the concrete config kinds of the source
as a sum; Go's interface-value type assertion becomes a variant
match. -/
inductive StatefulPrecompileConfig where
  | deployerAllowList (c : TeleporterContractDeployerAllowListConfig)
  | teleporter (c : TeleporterConfig)
deriving DecidableEq

/-- `NewTeleporterContractDeployerAllowListConfig`: an enabling config
at `blockTimestamp` with the given admins (disable flag left at its
zero value, false). -/
def NewTeleporterContractDeployerAllowListConfig (blockTimestamp : Option Nat)
    (admins : List Address) : TeleporterContractDeployerAllowListConfig :=
  { allowListConfig := { AllowListAdmins := admins },
    upgradeableConfig := { BlockTimestamp := blockTimestamp, Disable := false } }

/-- `NewDisableTeleporterContractDeployerAllowListConfig`: a disabling
config at `blockTimestamp`; only the upgradeable part is set, so the
admin list is the zero value, the empty list. -/
def NewDisableTeleporterContractDeployerAllowListConfig
    (blockTimestamp : Option Nat) : TeleporterContractDeployerAllowListConfig :=
  { allowListConfig := { AllowListAdmins := [] },
    upgradeableConfig := { BlockTimestamp := blockTimestamp, Disable := true } }

/-- `TeleporterContractDeployerAllowListConfig.Configure`: seed the
wrapped admin list under the contract deployer allow-list address. -/
def TeleporterContractDeployerAllowListConfig.Configure
    (c : TeleporterContractDeployerAllowListConfig) (state : StateDB) : StateDB :=
  c.allowListConfig.Configure state TeleporterContractDeployerAllowListAddress

/-- `TeleporterContractDeployerAllowListConfig.Equal`: type-assert the
peer to the same concrete kind (any other kind, or nil, compares
false), then compare the upgradeable part and the admin list. -/
def TeleporterContractDeployerAllowListConfig.Equal
    (c : TeleporterContractDeployerAllowListConfig)
    (s : Option StatefulPrecompileConfig) : Bool :=
  match s with
  | some (.deployerAllowList other) =>
      c.upgradeableConfig.Equal (some other.upgradeableConfig)
        && c.allowListConfig.Equal (some other.allowListConfig)
  | _ => false

/-- Folding Admin writes over any address list preserves a slot that
already holds the Admin word (every write writes Admin). -/
theorem foldl_setAdmin_preserves (l : List Address) (st : StateDB) (p : Nat)
    (a : Address) (h : st p (addressHash a) = TeleporterAllowListAdmin) :
    (l.foldl (fun s x => teleporterSetAllowListRole s p x TeleporterAllowListAdmin) st)
        p (addressHash a) = TeleporterAllowListAdmin := by
  induction l generalizing st with
  | nil => exact h
  | cons x xs ih =>
    rw [List.foldl_cons]
    apply ih
    unfold teleporterSetAllowListRole StateDB.SetState
    by_cases hx : addressHash a = addressHash x
    · simp [hx]
    · simp only [hx, and_false, if_false, ite_false]
      simpa using h

/-- After folding Admin writes over an address list, every member of
the list holds the Admin word. -/
theorem foldl_setAdmin_mem (l : List Address) (st : StateDB) (p : Nat)
    (a : Address) (h : a ∈ l) :
    (l.foldl (fun s x => teleporterSetAllowListRole s p x TeleporterAllowListAdmin) st)
        p (addressHash a) = TeleporterAllowListAdmin := by
  induction l generalizing st with
  | nil => cases h
  | cons x xs ih =>
    rw [List.foldl_cons]
    rcases List.mem_cons.mp h with rfl | hmem
    · apply foldl_setAdmin_preserves
      unfold teleporterSetAllowListRole StateDB.SetState
      simp
    · exact ih _ hmem

/-- C8: for an upgrade-gated config with the disable flag false,
running `Configure` on a state gives every address of the initial admin
list the Admin role under the config's own resource address; a config
with the disable flag true carries an empty admin list by construction
(as `NewDisableTeleporterContractDeployerAllowListConfig` produces),
and its `Configure` performs no seeding and returns the state
unchanged. -/
theorem configure_seeds_admins :
    (∀ (c : TeleporterContractDeployerAllowListConfig) (st : StateDB) (a : Address),
        c.upgradeableConfig.Disable = false →
        a ∈ c.allowListConfig.AllowListAdmins →
        c.Configure st TeleporterContractDeployerAllowListAddress (addressHash a)
          = TeleporterAllowListAdmin)
      ∧ (∀ (c : TeleporterContractDeployerAllowListConfig) (st : StateDB),
          c.upgradeableConfig.Disable = true →
          c.allowListConfig.AllowListAdmins = [] →
          c.Configure st = st)
      ∧ (∀ ts : Option Nat,
          (NewDisableTeleporterContractDeployerAllowListConfig ts).upgradeableConfig.Disable
              = true
            ∧ (NewDisableTeleporterContractDeployerAllowListConfig ts).allowListConfig.AllowListAdmins
              = []
            ∧ ∀ st : StateDB,
                (NewDisableTeleporterContractDeployerAllowListConfig ts).Configure st = st) := by
  refine ⟨?_, ?_, ?_⟩
  · intro c st a _ hmem
    unfold TeleporterContractDeployerAllowListConfig.Configure AllowListConfig.Configure
    exact foldl_setAdmin_mem _ _ _ _ hmem
  · intro c st _ hnil
    unfold TeleporterContractDeployerAllowListConfig.Configure AllowListConfig.Configure
    rw [hnil]
    rfl
  · intro ts
    exact ⟨rfl, rfl, fun st => rfl⟩

/-- Witness for C8: configuring with admin list containing address 4 on
the all-zero state gives address 4 the Admin role, and the disabling
config at timestamp 7 leaves the all-zero state unchanged. -/
theorem configure_seeds_admins_witness :
    (NewTeleporterContractDeployerAllowListConfig (some 3) [4]).Configure zeroState
        TeleporterContractDeployerAllowListAddress (addressHash 4)
      = TeleporterAllowListAdmin
    ∧ (NewDisableTeleporterContractDeployerAllowListConfig (some 7)).Configure zeroState
      = zeroState :=
  ⟨configure_seeds_admins.1 (NewTeleporterContractDeployerAllowListConfig (some 3) [4])
      zeroState 4 (by decide) (by decide),
   (configure_seeds_admins.2.2 (some 7)).2.2 zeroState⟩

/-- The positional admin comparison agrees with list equality once the
lengths agree. -/
theorem adminsPointwiseEqual_iff (xs : List Address) :
    ∀ ys : List Address, xs.length = ys.length →
      (adminsPointwiseEqual xs ys = true ↔ xs = ys) := by
  induction xs with
  | nil =>
    intro ys h
    cases ys with
    | nil => simp [adminsPointwiseEqual]
    | cons y ys => simp at h
  | cons x xs ih =>
    intro ys h
    cases ys with
    | nil => simp at h
    | cons y ys =>
      have h' : xs.length = ys.length := by simpa using h
      have hix := ih ys h'
      unfold adminsPointwiseEqual at hix ⊢
      simp only [List.zip_cons_cons, List.all_cons, Bool.and_eq_true, beq_iff_eq,
        List.cons.injEq]
      rw [hix]

/-- The modelled `AllowListConfig.Equal` returns true exactly on equal
admin sequences. -/
theorem allowListConfig_equal_iff (c o : AllowListConfig) :
    AllowListConfig.Equal c (some o) = true ↔
      c.AllowListAdmins = o.AllowListAdmins := by
  unfold AllowListConfig.Equal
  by_cases hlen : c.AllowListAdmins.length = o.AllowListAdmins.length
  · simp only [hlen, ne_eq, not_true_eq_false, if_false, ite_false]
    simpa using adminsPointwiseEqual_iff _ _ hlen
  · simp only [ne_eq, hlen, not_false_eq_true, if_true, ite_true]
    constructor
    · intro hfalse
      cases hfalse
    · intro heq
      exact absurd (by rw [heq]) hlen

/-- The modelled `UpgradeableConfig.Equal` returns true exactly on
equal timestamp and disable flag. -/
theorem upgradeableConfig_equal_iff (u o : UpgradeableConfig) :
    UpgradeableConfig.Equal u (some o) = true ↔
      (u.BlockTimestamp = o.BlockTimestamp ∧ u.Disable = o.Disable) := by
  unfold UpgradeableConfig.Equal
  simp [Bool.and_eq_true]

/-- C9: `Equal` on the deployer allow-list config returns true iff the
peer is of the same concrete kind and has the same activation
timestamp, the same disable flag and the same admin sequence in the
same order; against the other concrete kind or a nil peer it returns
false; and two configs with identical timestamp and disable flag but
admin lists [1, 2] versus [2, 1] compare unequal. -/
theorem deployer_config_equal_iff :
    (∀ c1 c2 : TeleporterContractDeployerAllowListConfig,
        c1.Equal (some (.deployerAllowList c2)) = true ↔
          (c1.upgradeableConfig.BlockTimestamp = c2.upgradeableConfig.BlockTimestamp
            ∧ c1.upgradeableConfig.Disable = c2.upgradeableConfig.Disable
            ∧ c1.allowListConfig.AllowListAdmins = c2.allowListConfig.AllowListAdmins))
      ∧ (∀ (c1 : TeleporterContractDeployerAllowListConfig) (t : TeleporterConfig),
          c1.Equal (some (.teleporter t)) = false)
      ∧ (∀ c1 : TeleporterContractDeployerAllowListConfig, c1.Equal none = false)
      ∧ (NewTeleporterContractDeployerAllowListConfig (some 10) [1, 2]).Equal
          (some (.deployerAllowList
            (NewTeleporterContractDeployerAllowListConfig (some 10) [2, 1])))
        = false := by
  refine ⟨?_, fun c1 t => rfl, fun c1 => rfl, by decide⟩
  intro c1 c2
  unfold TeleporterContractDeployerAllowListConfig.Equal
  rw [Bool.and_eq_true, upgradeableConfig_equal_iff, allowListConfig_equal_iff]
  tauto
